import Mathlib

/-!
Verification of the Rockchip integrated FEPHY driver
(`drivers/net/phy/rockchip-fephy.c`).

The driver talks to the PHY through `phy_write(phydev, addr, val)`, a
blocking 16-bit register write that returns an `int` (0 on success, a
negative errno on a bus error).  We embed the driver shallowly: each
driver function becomes a Lean function threading a state `S` that holds

* `bus`   — a script of results for the upcoming `phy_write` calls, consumed
            one entry per write; once the script is exhausted every further
            write succeeds (result 0), so `bus = []` is the all-success bus;
* `trace` — the ordered list of externally visible events performed so far
            (register writes with the 16-bit value actually put on the bus,
            interrupt-line enable/disable, and delegation to the generic
            PHY suspend/resume helpers, which are external collaborators
            modelled as single events returning a given result).
-/

namespace RockchipFephy

/-! ### Register addresses and constants, from the C defines -/

def MII_INTERNAL_CTRL_STATUS : Nat := 17
def SMI_ADDR_TSTCNTL : Nat := 20
def SMI_ADDR_TSTREAD1 : Nat := 21
def SMI_ADDR_TSTREAD2 : Nat := 22
def SMI_ADDR_TSTWRITE : Nat := 23
def MII_LED_CTRL : Nat := 25
def MII_INT_STATUS : Nat := 29
def MII_INT_MASK : Nat := 30
def MII_SPECIAL_CONTROL_STATUS : Nat := 31

def TSTCNTL_WRITE_ADDR : Nat := 0
def TSTCNTL_READ_ADDR : Nat := 5
def TSTCNTL_BANK_SEL : Nat := 11

/-- `TSTCNTL_RD = BIT(15) | BIT(10)` -/
def TSTCNTL_RD : Nat := 2 ^ 15 ||| 2 ^ 10

/-- `TSTCNTL_WR = BIT(14) | BIT(10)` -/
def TSTCNTL_WR : Nat := 2 ^ 14 ||| 2 ^ 10

/-- `TSTCNTL_WRITE(bank, reg) = TSTCNTL_WR | (bank << TSTCNTL_BANK_SEL) | (reg << TSTCNTL_WRITE_ADDR)` -/
def TSTCNTL_WRITE (bank reg : Nat) : Nat :=
  TSTCNTL_WR ||| (bank <<< TSTCNTL_BANK_SEL) ||| (reg <<< TSTCNTL_WRITE_ADDR)

/-- `TSTCNTL_READ(bank, reg) = TSTCNTL_RD | (bank << TSTCNTL_BANK_SEL) | (reg << TSTCNTL_READ_ADDR)` -/
def TSTCNTL_READ (bank reg : Nat) : Nat :=
  TSTCNTL_RD ||| (bank <<< TSTCNTL_BANK_SEL) ||| (reg <<< TSTCNTL_READ_ADDR)

def TSTMODE_ENABLE : Nat := 0x400
def TSTMODE_DISABLE : Nat := 0x0
def WR_ADDR_A7CFG : Nat := 0x18

/-- Bank indices from the C enum `{ BANK_DSP0 = 0, BANK_WOL, BANK_BIST = 3, BANK_AFE, BANK_DSP1 }`. -/
def BANK_DSP0 : Nat := 0
def BANK_WOL : Nat := 1
def BANK_BIST : Nat := 3
def BANK_AFE : Nat := 4
def BANK_DSP1 : Nat := 5

/-- Linux errno values used by the driver. -/
def ENOMEM : Int := 12
def EPROBE_DEFER : Int := 517

/-! ### Events, state and the register-write primitive -/

/-- Externally visible events performed by the driver. -/
inductive Ev where
  | write (addr val : Nat)
  | enableIrq (irq : Int)
  | disableIrq (irq : Int)
  | genSuspend
  | genResume
deriving DecidableEq, Repr

/-- Driver-visible state: the script of upcoming bus results and the trace
of events performed so far. -/
structure S where
  bus : List Int
  trace : List Ev
deriving DecidableEq, Repr

/-- `phy_write(phydev, addr, val)`: puts the low 16 bits of `val` on the bus
(the kernel prototype takes a `u16` value) and returns the next scripted bus
result, 0 (success) once the script is exhausted.  The attempted write is
recorded in the trace whether or not the bus reports an error. -/
def phy_write (addr val : Nat) (s : S) : Int × S :=
  match s.bus with
  | [] => (0, ⟨[], s.trace ++ [Ev.write addr (val % 2 ^ 16)]⟩)
  | r :: rest => (r, ⟨rest, s.trace ++ [Ev.write addr (val % 2 ^ 16)]⟩)

/-! ### Device structures -/

/-- The attached network interface; the driver only reads its 6-byte
hardware address `dev_addr` (an array of `u8`). -/
structure net_device where
  dev_addr : Fin 6 → Nat

/-- `struct rockchip_fephy_priv { struct phy_device *phydev; int wol_irq; }`.
`phydev_set` records whether the `phydev` back-pointer has been filled in. -/
structure rockchip_fephy_priv where
  phydev_set : Bool
  wol_irq : Int
deriving DecidableEq, Repr

/-- The slice of `struct phy_device` the driver uses: the attached network
interface and the driver-private data. -/
structure phy_device where
  attached_dev : net_device
  priv : rockchip_fephy_priv

/-! ### Driver functions, one Lean definition per C function -/

/-- `rockchip_fephy_init_tstmode`: four writes to `SMI_ADDR_TSTCNTL` with
values `TSTMODE_DISABLE, TSTMODE_ENABLE, TSTMODE_DISABLE, TSTMODE_ENABLE`,
returning early on the first failure. -/
def rockchip_fephy_init_tstmode (s : S) : Int × S :=
  let (ret, s) := phy_write SMI_ADDR_TSTCNTL TSTMODE_DISABLE s
  if ret ≠ 0 then (ret, s) else
  let (ret, s) := phy_write SMI_ADDR_TSTCNTL TSTMODE_ENABLE s
  if ret ≠ 0 then (ret, s) else
  let (ret, s) := phy_write SMI_ADDR_TSTCNTL TSTMODE_DISABLE s
  if ret ≠ 0 then (ret, s) else
  phy_write SMI_ADDR_TSTCNTL TSTMODE_ENABLE s

/-- `rockchip_fephy_close_tstmode`: back to the basic register bank. -/
def rockchip_fephy_close_tstmode (s : S) : Int × S :=
  phy_write SMI_ADDR_TSTCNTL TSTMODE_DISABLE s

/-- `rockchip_fephy_bank_write`: write `val` to `SMI_ADDR_TSTWRITE`, then the
control word `TSTCNTL_WRITE(bank, reg)` to `SMI_ADDR_TSTCNTL`; the second
write is skipped if the first fails. -/
def rockchip_fephy_bank_write (bank reg val : Nat) (s : S) : Int × S :=
  let (ret, s) := phy_write SMI_ADDR_TSTWRITE val s
  if ret ≠ 0 then (ret, s) else
  phy_write SMI_ADDR_TSTCNTL (TSTCNTL_WRITE bank reg) s

/-- `rockchip_fephy_config_init`: LED control, enter test mode, banked
amplitude-control write, close test mode; early return on any failure. -/
def rockchip_fephy_config_init (s : S) : Int × S :=
  let (ret, s) := phy_write MII_LED_CTRL 0x7aa s
  if ret ≠ 0 then (ret, s) else
  let (ret, s) := rockchip_fephy_init_tstmode s
  if ret ≠ 0 then (ret, s) else
  let (ret, s) := rockchip_fephy_bank_write BANK_DSP0 0x18 0xc s
  if ret ≠ 0 then (ret, s) else
  rockchip_fephy_close_tstmode s

/-- `rockchip_fephy_wol_enable`: program the three WOL match-address words
and the match-enable mask through banked writes, then unmask the WOL
interrupt source; early return on any failure. -/
def rockchip_fephy_wol_enable (phydev : phy_device) (s : S) : Int × S :=
  let a := phydev.attached_dev.dev_addr
  let (ret, s) := rockchip_fephy_bank_write BANK_WOL 0x0 ((a 4 <<< 8) + a 5) s
  if ret ≠ 0 then (ret, s) else
  let (ret, s) := rockchip_fephy_bank_write BANK_WOL 0x1 ((a 2 <<< 8) + a 3) s
  if ret ≠ 0 then (ret, s) else
  let (ret, s) := rockchip_fephy_bank_write BANK_WOL 0x2 ((a 0 <<< 8) + a 1) s
  if ret ≠ 0 then (ret, s) else
  let (ret, s) := rockchip_fephy_bank_write BANK_WOL 0x3 0xf s
  if ret ≠ 0 then (ret, s) else
  phy_write MII_INT_MASK 0xe00 s

/-- `rockchip_fephy_wol_disable`: clear the banked match-enable mask, then
mask the WOL interrupt source; early return on failure. -/
def rockchip_fephy_wol_disable (s : S) : Int × S :=
  let (ret, s) := rockchip_fephy_bank_write BANK_WOL 0x3 0x0 s
  if ret ≠ 0 then (ret, s) else
  phy_write MII_INT_MASK 0x0 s

/-- `genphy_suspend`: external collaborator, modelled as a single event
whose result `genRet` is supplied by the environment. -/
def genphy_suspend (genRet : Int) (s : S) : Int × S :=
  (genRet, ⟨s.bus, s.trace ++ [Ev.genSuspend]⟩)

/-- `genphy_resume`: external collaborator, modelled as a single event. -/
def genphy_resume (genRet : Int) (s : S) : Int × S :=
  (genRet, ⟨s.bus, s.trace ++ [Ev.genResume]⟩)

/-- `rockchip_fephy_suspend`: if a wake interrupt line is bound
(`wol_irq > 0`), call `rockchip_fephy_wol_enable` (its result is not
inspected), then `enable_irq`, then delegate to `genphy_suspend`. -/
def rockchip_fephy_suspend (genRet : Int) (phydev : phy_device) (s : S) : Int × S :=
  let s :=
    if phydev.priv.wol_irq > 0 then
      let (_, s) := rockchip_fephy_wol_enable phydev s
      ⟨s.bus, s.trace ++ [Ev.enableIrq phydev.priv.wol_irq]⟩
    else s
  genphy_suspend genRet s

/-- `rockchip_fephy_resume`: if a wake interrupt line is bound, call
`rockchip_fephy_wol_disable` (its result is not inspected), then
`disable_irq`, then delegate to `genphy_resume`. -/
def rockchip_fephy_resume (genRet : Int) (phydev : phy_device) (s : S) : Int × S :=
  let s :=
    if phydev.priv.wol_irq > 0 then
      let (_, s) := rockchip_fephy_wol_disable s
      ⟨s.bus, s.trace ++ [Ev.disableIrq phydev.priv.wol_irq]⟩
    else s
  genphy_resume genRet s

/-! ### Probe -/

/-- Outcome of `rockchip_fephy_probe`: the returned `int`, the contents of
`phydev->priv` (set as soon as allocation succeeds), and whether the
threaded WOL interrupt handler was registered. -/
structure ProbeOutcome where
  ret : Int
  priv : Option rockchip_fephy_priv
  irq_registered : Bool
deriving DecidableEq, Repr

/-- `rockchip_fephy_probe`, parameterised by its environment: whether
`devm_kzalloc` succeeds, the result of `of_irq_get_byname(.., "wol_irq")`
(`irq_lookup`), and the result of `devm_request_threaded_irq` (`reqRet`).
`devm_kzalloc` zero-fills, so the fresh `priv` has a null `phydev`
back-pointer; the back-pointer is filled in only on the final success path. -/
def rockchip_fephy_probe (alloc_ok : Bool) (irq_lookup reqRet : Int) : ProbeOutcome :=
  if alloc_ok = false then ⟨-ENOMEM, none, false⟩
  else
    -- priv->wol_irq = of_irq_get_byname(...)
    if irq_lookup = -EPROBE_DEFER then
      ⟨irq_lookup, some ⟨false, irq_lookup⟩, false⟩
    else if irq_lookup > 0 then
      if reqRet ≠ 0 then
        -- request wol_irq failed: goto irq_err; return ret
        ⟨reqRet, some ⟨false, irq_lookup⟩, false⟩
      else
        -- handler registered, irq disabled and marked wake-capable,
        -- priv->phydev = phydev, return 0
        ⟨0, some ⟨true, irq_lookup⟩, true⟩
    else
      ⟨0, some ⟨true, irq_lookup⟩, false⟩

/-! ### Register-level device interpretation

Modelled from the spec: the hardware effect of the writes the driver
issues, used to state what "register effects" a write trace has.  A write
to the test-mode control register whose value carries the write-command
flag bits (`TSTCNTL_WR`) latches the last value written to the test-mode
write-data register into the banked register addressed by the bank field
(bits 11+) and the write-offset field (bits 0+) of the control word; every
write also stores its value in the flat register file. -/

structure Device where
  regs : Nat → Nat
  banks : Nat → Nat → Nat

/-- Modelled from the spec: effect of one event on the device registers.
Only register writes change registers; interrupt-line and generic-PHY
events do not touch the flat or banked register files. -/
def devStep (d : Device) (e : Ev) : Device :=
  match e with
  | Ev.write addr val =>
    let regs' := fun a => if a = addr then val else d.regs a
    if addr = SMI_ADDR_TSTCNTL ∧ val &&& TSTCNTL_WR = TSTCNTL_WR then
      { regs := regs',
        banks := fun b o =>
          if b = (val >>> TSTCNTL_BANK_SEL) &&& 7 ∧ o = val &&& 31 then
            d.regs SMI_ADDR_TSTWRITE
          else d.banks b o }
    else
      { d with regs := regs' }
  | _ => d

/-- Run a trace of events over the device registers. -/
def devRun (d : Device) (t : List Ev) : Device :=
  t.foldl devStep d

end RockchipFephy

namespace RockchipFephy

/-! ### Helper lemmas (shared by several claim theorems) -/

/-- On the all-success bus, `rockchip_fephy_wol_enable` issues exactly the
eight banked-protocol writes followed by the interrupt-mask write. -/
lemma wol_enable_ok (phydev : phy_device) (t : List Ev)
    (ha : ∀ i, phydev.attached_dev.dev_addr i < 256) :
    rockchip_fephy_wol_enable phydev ⟨[], t⟩ =
      (0, ⟨[], t ++
        [Ev.write SMI_ADDR_TSTWRITE
           ((phydev.attached_dev.dev_addr 4 <<< 8) + phydev.attached_dev.dev_addr 5),
         Ev.write SMI_ADDR_TSTCNTL (TSTCNTL_WRITE BANK_WOL 0x0),
         Ev.write SMI_ADDR_TSTWRITE
           ((phydev.attached_dev.dev_addr 2 <<< 8) + phydev.attached_dev.dev_addr 3),
         Ev.write SMI_ADDR_TSTCNTL (TSTCNTL_WRITE BANK_WOL 0x1),
         Ev.write SMI_ADDR_TSTWRITE
           ((phydev.attached_dev.dev_addr 0 <<< 8) + phydev.attached_dev.dev_addr 1),
         Ev.write SMI_ADDR_TSTCNTL (TSTCNTL_WRITE BANK_WOL 0x2),
         Ev.write SMI_ADDR_TSTWRITE 0xf,
         Ev.write SMI_ADDR_TSTCNTL (TSTCNTL_WRITE BANK_WOL 0x3),
         Ev.write MII_INT_MASK 0xe00]⟩) := by
  have hm : ∀ i j : Fin 6,
      ((phydev.attached_dev.dev_addr i <<< 8) + phydev.attached_dev.dev_addr j) % 2 ^ 16 =
        (phydev.attached_dev.dev_addr i <<< 8) + phydev.attached_dev.dev_addr j := by
    intro i j
    have hi := ha i
    have hj := ha j
    apply Nat.mod_eq_of_lt
    simp only [Nat.shiftLeft_eq]
    norm_num
    omega
  simp [rockchip_fephy_wol_enable, rockchip_fephy_bank_write, phy_write,
    TSTCNTL_WRITE, TSTCNTL_WR, TSTCNTL_BANK_SEL, TSTCNTL_WRITE_ADDR,
    BANK_WOL, SMI_ADDR_TSTWRITE, SMI_ADDR_TSTCNTL, MII_INT_MASK,
    hm 4 5, hm 2 3, hm 0 1]
  have h0 := ha 0
  have h1 := ha 1
  have h2 := ha 2
  have h3 := ha 3
  have h4 := ha 4
  have h5 := ha 5
  refine ⟨?_, ?_, ?_⟩ <;>
    · simp only [Nat.shiftLeft_eq]
      norm_num
      omega

/-- On the all-success bus, `rockchip_fephy_wol_disable` issues exactly the
two writes of the banked clear followed by the interrupt-mask write. -/
lemma wol_disable_ok (t : List Ev) :
    rockchip_fephy_wol_disable ⟨[], t⟩ =
      (0, ⟨[], t ++
        [Ev.write SMI_ADDR_TSTWRITE 0x0,
         Ev.write SMI_ADDR_TSTCNTL (TSTCNTL_WRITE BANK_WOL 0x3),
         Ev.write MII_INT_MASK 0x0]⟩) := by
  simp [rockchip_fephy_wol_disable, rockchip_fephy_bank_write, phy_write,
    TSTCNTL_WRITE, TSTCNTL_WR, TSTCNTL_BANK_SEL, TSTCNTL_WRITE_ADDR,
    BANK_WOL, SMI_ADDR_TSTWRITE, SMI_ADDR_TSTCNTL, MII_INT_MASK]

/-! ### Claim theorems -/

/-- Claim C1: for every 6-byte hardware address `I` of the attached
interface, WOL enable performs, in order, the banked writes
`(WOL,0) = (I[4]<<8)|I[5]`, `(WOL,1) = (I[2]<<8)|I[3]`,
`(WOL,2) = (I[0]<<8)|I[1]`, `(WOL,3) = 0xF` (each banked write being its
data write followed by its control write) and then writes `0xE00` to the
interrupt-mask register (address 30). -/
theorem wol_enable_programs_identity (phydev : phy_device) (t : List Ev)
    (ha : ∀ i, phydev.attached_dev.dev_addr i < 256) :
    rockchip_fephy_wol_enable phydev ⟨[], t⟩ =
      (0, ⟨[], t ++
        [Ev.write SMI_ADDR_TSTWRITE
           ((phydev.attached_dev.dev_addr 4 <<< 8) + phydev.attached_dev.dev_addr 5),
         Ev.write SMI_ADDR_TSTCNTL (TSTCNTL_WRITE BANK_WOL 0x0),
         Ev.write SMI_ADDR_TSTWRITE
           ((phydev.attached_dev.dev_addr 2 <<< 8) + phydev.attached_dev.dev_addr 3),
         Ev.write SMI_ADDR_TSTCNTL (TSTCNTL_WRITE BANK_WOL 0x1),
         Ev.write SMI_ADDR_TSTWRITE
           ((phydev.attached_dev.dev_addr 0 <<< 8) + phydev.attached_dev.dev_addr 1),
         Ev.write SMI_ADDR_TSTCNTL (TSTCNTL_WRITE BANK_WOL 0x2),
         Ev.write SMI_ADDR_TSTWRITE 0xf,
         Ev.write SMI_ADDR_TSTCNTL (TSTCNTL_WRITE BANK_WOL 0x3),
         Ev.write MII_INT_MASK 0xe00]⟩) :=
  wol_enable_ok phydev t ha

/-- Claim C1 witness: the scenario `I = {0x00,0x11,0x22,0x33,0x44,0x55}`
yields the banked values `0x4455, 0x2233, 0x0011, 0xF`. -/
theorem wol_enable_programs_identity_witness :
    rockchip_fephy_wol_enable
        ⟨⟨![0x00, 0x11, 0x22, 0x33, 0x44, 0x55]⟩, ⟨true, 1⟩⟩ ⟨[], []⟩ =
      (0, ⟨[],
        [Ev.write SMI_ADDR_TSTWRITE 0x4455,
         Ev.write SMI_ADDR_TSTCNTL (TSTCNTL_WRITE BANK_WOL 0x0),
         Ev.write SMI_ADDR_TSTWRITE 0x2233,
         Ev.write SMI_ADDR_TSTCNTL (TSTCNTL_WRITE BANK_WOL 0x1),
         Ev.write SMI_ADDR_TSTWRITE 0x0011,
         Ev.write SMI_ADDR_TSTCNTL (TSTCNTL_WRITE BANK_WOL 0x2),
         Ev.write SMI_ADDR_TSTWRITE 0xf,
         Ev.write SMI_ADDR_TSTCNTL (TSTCNTL_WRITE BANK_WOL 0x3),
         Ev.write MII_INT_MASK 0xe00]⟩) :=
  (wol_enable_programs_identity
      ⟨⟨![0x00, 0x11, 0x22, 0x33, 0x44, 0x55]⟩, ⟨true, 1⟩⟩ [] (by decide)).trans
    (by decide)

/-- Claim C2 (code bug evidence): `rockchip_fephy_wol_enable` is not a
scoped test-mode operation — on a concrete identity neither its own trace
nor the trace of its caller `rockchip_fephy_suspend` contains any write of
`TSTMODE_ENABLE` or `TSTMODE_DISABLE` to the test-mode control register,
so test mode is neither entered before the banked writes nor exited after
them. -/
theorem wol_enable_never_toggles_test_mode :
    Ev.write SMI_ADDR_TSTCNTL TSTMODE_ENABLE ∉
      (rockchip_fephy_wol_enable
        ⟨⟨![0x00, 0x11, 0x22, 0x33, 0x44, 0x55]⟩, ⟨true, 1⟩⟩ ⟨[], []⟩).2.trace ∧
    Ev.write SMI_ADDR_TSTCNTL TSTMODE_DISABLE ∉
      (rockchip_fephy_wol_enable
        ⟨⟨![0x00, 0x11, 0x22, 0x33, 0x44, 0x55]⟩, ⟨true, 1⟩⟩ ⟨[], []⟩).2.trace ∧
    Ev.write SMI_ADDR_TSTCNTL TSTMODE_ENABLE ∉
      (rockchip_fephy_suspend 0
        ⟨⟨![0x00, 0x11, 0x22, 0x33, 0x44, 0x55]⟩, ⟨true, 1⟩⟩ ⟨[], []⟩).2.trace ∧
    Ev.write SMI_ADDR_TSTCNTL TSTMODE_DISABLE ∉
      (rockchip_fephy_suspend 0
        ⟨⟨![0x00, 0x11, 0x22, 0x33, 0x44, 0x55]⟩, ⟨true, 1⟩⟩ ⟨[], []⟩).2.trace := by
  decide

/-- Claim C3 counterexample: with a bus whose first write fails with `-5`,
the WOL-enable register write inside suspend fails, yet suspend discards
that error and returns the generic-suspend result `0`. -/
theorem suspend_swallows_wol_error :
    (rockchip_fephy_wol_enable
        ⟨⟨![0x00, 0x11, 0x22, 0x33, 0x44, 0x55]⟩, ⟨true, 1⟩⟩ ⟨[-5], []⟩).1 = -5 ∧
    rockchip_fephy_suspend 0
        ⟨⟨![0x00, 0x11, 0x22, 0x33, 0x44, 0x55]⟩, ⟨true, 1⟩⟩ ⟨[-5], []⟩ =
      (0, ⟨[], [Ev.write SMI_ADDR_TSTWRITE 0x4455, Ev.enableIrq 1, Ev.genSuspend]⟩) := by
  decide

/-- Claim C3 (amended): register-write errors during attach-time init
propagate as the operation's result and an interrupt-request failure
propagates as the probe result, but suspend and resume never inspect the
result of WOL enable/disable: they always return exactly the generic
suspend/resume result, silently discarding any bus error under them. -/
theorem error_propagation_except_suspend_resume
    (genRet : Int) (phydev : phy_device) (s : S)
    (irq reqRet e : Int) (rest : List Int) (t : List Ev)
    (hirq : irq > 0) (hreq : reqRet ≠ 0) (he : e ≠ 0) :
    (rockchip_fephy_suspend genRet phydev s).1 = genRet ∧
    (rockchip_fephy_resume genRet phydev s).1 = genRet ∧
    (rockchip_fephy_probe true irq reqRet).ret = reqRet ∧
    (rockchip_fephy_config_init ⟨e :: rest, t⟩).1 = e := by
  have hd : irq ≠ -EPROBE_DEFER := by
    simp only [EPROBE_DEFER]
    omega
  refine ⟨?_, ?_, ?_, ?_⟩
  · simp [rockchip_fephy_suspend, genphy_suspend]
  · simp [rockchip_fephy_resume, genphy_resume]
  · simp [rockchip_fephy_probe, hd, hirq, hreq]
  · simp [rockchip_fephy_config_init, phy_write, MII_LED_CTRL, he]

/-- Claim C3 (amended) witness: concrete instances of each conjunct. -/
theorem error_propagation_except_suspend_resume_witness :
    (rockchip_fephy_suspend 7
        ⟨⟨![0x00, 0x11, 0x22, 0x33, 0x44, 0x55]⟩, ⟨true, 1⟩⟩ ⟨[], []⟩).1 = 7 ∧
    (rockchip_fephy_resume 7
        ⟨⟨![0x00, 0x11, 0x22, 0x33, 0x44, 0x55]⟩, ⟨true, 1⟩⟩ ⟨[], []⟩).1 = 7 ∧
    (rockchip_fephy_probe true 1 (-3)).ret = -3 ∧
    (rockchip_fephy_config_init ⟨[-5], []⟩).1 = -5 :=
  error_propagation_except_suspend_resume 7
    ⟨⟨![0x00, 0x11, 0x22, 0x33, 0x44, 0x55]⟩, ⟨true, 1⟩⟩ ⟨[], []⟩
    1 (-3) (-5) [] [] (by decide) (by decide) (by decide)

end RockchipFephy

namespace RockchipFephy

/-- Claim C4: on a fresh instance with no write failures, init performs
exactly these 8 register writes in order — LED = 0x7aa, the four test-mode
writes 0x0, 0x400, 0x0, 0x400, the two writes of the banked write of 0xC
to (DSP0, 0x18), and the closing 0x0 to the test-mode control register —
and if the k-th write fails, the sequence aborts returning that error with
no further writes. -/
theorem config_init_writes (t : List Ev) (k : Nat) (e : Int) (rest : List Int)
    (hk : k < 8) (he : e ≠ 0) :
    rockchip_fephy_config_init ⟨[], t⟩ =
      (0, ⟨[], t ++
        [Ev.write MII_LED_CTRL 0x7aa,
         Ev.write SMI_ADDR_TSTCNTL TSTMODE_DISABLE,
         Ev.write SMI_ADDR_TSTCNTL TSTMODE_ENABLE,
         Ev.write SMI_ADDR_TSTCNTL TSTMODE_DISABLE,
         Ev.write SMI_ADDR_TSTCNTL TSTMODE_ENABLE,
         Ev.write SMI_ADDR_TSTWRITE 0xc,
         Ev.write SMI_ADDR_TSTCNTL (TSTCNTL_WRITE BANK_DSP0 0x18),
         Ev.write SMI_ADDR_TSTCNTL TSTMODE_DISABLE]⟩) ∧
    rockchip_fephy_config_init ⟨List.replicate k 0 ++ e :: rest, t⟩ =
      (e, ⟨rest, t ++ List.take (k + 1)
        [Ev.write MII_LED_CTRL 0x7aa,
         Ev.write SMI_ADDR_TSTCNTL TSTMODE_DISABLE,
         Ev.write SMI_ADDR_TSTCNTL TSTMODE_ENABLE,
         Ev.write SMI_ADDR_TSTCNTL TSTMODE_DISABLE,
         Ev.write SMI_ADDR_TSTCNTL TSTMODE_ENABLE,
         Ev.write SMI_ADDR_TSTWRITE 0xc,
         Ev.write SMI_ADDR_TSTCNTL (TSTCNTL_WRITE BANK_DSP0 0x18),
         Ev.write SMI_ADDR_TSTCNTL TSTMODE_DISABLE]⟩) := by
  constructor
  · simp [rockchip_fephy_config_init, rockchip_fephy_init_tstmode,
      rockchip_fephy_close_tstmode, rockchip_fephy_bank_write, phy_write,
      TSTCNTL_WRITE, TSTCNTL_WR, TSTCNTL_BANK_SEL, TSTCNTL_WRITE_ADDR,
      BANK_DSP0, TSTMODE_DISABLE, TSTMODE_ENABLE,
      MII_LED_CTRL, SMI_ADDR_TSTWRITE, SMI_ADDR_TSTCNTL]
  · interval_cases k <;>
      simp [rockchip_fephy_config_init, rockchip_fephy_init_tstmode,
        rockchip_fephy_close_tstmode, rockchip_fephy_bank_write, phy_write,
        TSTCNTL_WRITE, TSTCNTL_WR, TSTCNTL_BANK_SEL, TSTCNTL_WRITE_ADDR,
        BANK_DSP0, TSTMODE_DISABLE, TSTMODE_ENABLE,
        MII_LED_CTRL, SMI_ADDR_TSTWRITE, SMI_ADDR_TSTCNTL, he]

/-- Claim C4 witness: concrete instances — the fresh all-success run and a
failure of the 4th write (k = 3) with error `-7`. -/
theorem config_init_writes_witness :
    rockchip_fephy_config_init ⟨[], []⟩ =
      (0, ⟨[],
        [Ev.write MII_LED_CTRL 0x7aa,
         Ev.write SMI_ADDR_TSTCNTL TSTMODE_DISABLE,
         Ev.write SMI_ADDR_TSTCNTL TSTMODE_ENABLE,
         Ev.write SMI_ADDR_TSTCNTL TSTMODE_DISABLE,
         Ev.write SMI_ADDR_TSTCNTL TSTMODE_ENABLE,
         Ev.write SMI_ADDR_TSTWRITE 0xc,
         Ev.write SMI_ADDR_TSTCNTL (TSTCNTL_WRITE BANK_DSP0 0x18),
         Ev.write SMI_ADDR_TSTCNTL TSTMODE_DISABLE]⟩) ∧
    rockchip_fephy_config_init ⟨[0, 0, 0, -7], []⟩ =
      (-7, ⟨[],
        [Ev.write MII_LED_CTRL 0x7aa,
         Ev.write SMI_ADDR_TSTCNTL TSTMODE_DISABLE,
         Ev.write SMI_ADDR_TSTCNTL TSTMODE_ENABLE,
         Ev.write SMI_ADDR_TSTCNTL TSTMODE_DISABLE]⟩) := by
  have h := config_init_writes [] 3 (-7) [] (by decide) (by decide)
  exact ⟨h.1.trans (by decide), h.2.trans (by decide)⟩

/-- Claim C5: on an instance with a bound wake interrupt line, suspend
performs WOL enable, then enables the wake interrupt line, then invokes
generic suspend; resume is the exact mirror — WOL disable, then disable
the wake interrupt line, then generic resume. -/
theorem suspend_resume_order (phydev : phy_device) (genRet : Int) (t : List Ev)
    (hirq : phydev.priv.wol_irq > 0)
    (ha : ∀ i, phydev.attached_dev.dev_addr i < 256) :
    rockchip_fephy_suspend genRet phydev ⟨[], t⟩ =
      (genRet, ⟨[], t ++
        [Ev.write SMI_ADDR_TSTWRITE
           ((phydev.attached_dev.dev_addr 4 <<< 8) + phydev.attached_dev.dev_addr 5),
         Ev.write SMI_ADDR_TSTCNTL (TSTCNTL_WRITE BANK_WOL 0x0),
         Ev.write SMI_ADDR_TSTWRITE
           ((phydev.attached_dev.dev_addr 2 <<< 8) + phydev.attached_dev.dev_addr 3),
         Ev.write SMI_ADDR_TSTCNTL (TSTCNTL_WRITE BANK_WOL 0x1),
         Ev.write SMI_ADDR_TSTWRITE
           ((phydev.attached_dev.dev_addr 0 <<< 8) + phydev.attached_dev.dev_addr 1),
         Ev.write SMI_ADDR_TSTCNTL (TSTCNTL_WRITE BANK_WOL 0x2),
         Ev.write SMI_ADDR_TSTWRITE 0xf,
         Ev.write SMI_ADDR_TSTCNTL (TSTCNTL_WRITE BANK_WOL 0x3),
         Ev.write MII_INT_MASK 0xe00] ++
        [Ev.enableIrq phydev.priv.wol_irq, Ev.genSuspend]⟩) ∧
    rockchip_fephy_resume genRet phydev ⟨[], t⟩ =
      (genRet, ⟨[], t ++
        [Ev.write SMI_ADDR_TSTWRITE 0x0,
         Ev.write SMI_ADDR_TSTCNTL (TSTCNTL_WRITE BANK_WOL 0x3),
         Ev.write MII_INT_MASK 0x0] ++
        [Ev.disableIrq phydev.priv.wol_irq, Ev.genResume]⟩) := by
  constructor
  · simp [rockchip_fephy_suspend, genphy_suspend, hirq, wol_enable_ok phydev t ha]
  · simp [rockchip_fephy_resume, genphy_resume, hirq, wol_disable_ok t]

/-- Claim C5 witness: concrete device with wake line 1 and identity
`00:11:22:33:44:55`. -/
theorem suspend_resume_order_witness :
    rockchip_fephy_suspend 3
        ⟨⟨![0x00, 0x11, 0x22, 0x33, 0x44, 0x55]⟩, ⟨true, 1⟩⟩ ⟨[], []⟩ =
      (3, ⟨[],
        [Ev.write SMI_ADDR_TSTWRITE 0x4455,
         Ev.write SMI_ADDR_TSTCNTL (TSTCNTL_WRITE BANK_WOL 0x0),
         Ev.write SMI_ADDR_TSTWRITE 0x2233,
         Ev.write SMI_ADDR_TSTCNTL (TSTCNTL_WRITE BANK_WOL 0x1),
         Ev.write SMI_ADDR_TSTWRITE 0x0011,
         Ev.write SMI_ADDR_TSTCNTL (TSTCNTL_WRITE BANK_WOL 0x2),
         Ev.write SMI_ADDR_TSTWRITE 0xf,
         Ev.write SMI_ADDR_TSTCNTL (TSTCNTL_WRITE BANK_WOL 0x3),
         Ev.write MII_INT_MASK 0xe00,
         Ev.enableIrq 1, Ev.genSuspend]⟩) ∧
    rockchip_fephy_resume 3
        ⟨⟨![0x00, 0x11, 0x22, 0x33, 0x44, 0x55]⟩, ⟨true, 1⟩⟩ ⟨[], []⟩ =
      (3, ⟨[],
        [Ev.write SMI_ADDR_TSTWRITE 0x0,
         Ev.write SMI_ADDR_TSTCNTL (TSTCNTL_WRITE BANK_WOL 0x3),
         Ev.write MII_INT_MASK 0x0,
         Ev.disableIrq 1, Ev.genResume]⟩) := by
  have h := suspend_resume_order
    ⟨⟨![0x00, 0x11, 0x22, 0x33, 0x44, 0x55]⟩, ⟨true, 1⟩⟩ 3 [] (by decide) (by decide)
  exact ⟨h.1.trans (by decide), h.2.trans (by decide)⟩

/-- Claim C6: enter-test-mode issues at most 4 writes, all to the test-mode
control register, with values taken in order from `[0x0, 0x400, 0x0, 0x400]`;
on success exactly these 4 writes occur, and if the k-th write fails, writes
k+1..4 are not attempted and the failing write's error is returned. -/
theorem init_tstmode_writes (t : List Ev) (k : Nat) (e : Int) (rest : List Int)
    (hk : k < 4) (he : e ≠ 0) :
    rockchip_fephy_init_tstmode ⟨[], t⟩ =
      (0, ⟨[], t ++
        [Ev.write SMI_ADDR_TSTCNTL TSTMODE_DISABLE,
         Ev.write SMI_ADDR_TSTCNTL TSTMODE_ENABLE,
         Ev.write SMI_ADDR_TSTCNTL TSTMODE_DISABLE,
         Ev.write SMI_ADDR_TSTCNTL TSTMODE_ENABLE]⟩) ∧
    rockchip_fephy_init_tstmode ⟨List.replicate k 0 ++ e :: rest, t⟩ =
      (e, ⟨rest, t ++ List.take (k + 1)
        [Ev.write SMI_ADDR_TSTCNTL TSTMODE_DISABLE,
         Ev.write SMI_ADDR_TSTCNTL TSTMODE_ENABLE,
         Ev.write SMI_ADDR_TSTCNTL TSTMODE_DISABLE,
         Ev.write SMI_ADDR_TSTCNTL TSTMODE_ENABLE]⟩) := by
  constructor
  · simp [rockchip_fephy_init_tstmode, phy_write,
      TSTMODE_DISABLE, TSTMODE_ENABLE, SMI_ADDR_TSTCNTL]
  · interval_cases k <;>
      simp [rockchip_fephy_init_tstmode, phy_write,
        TSTMODE_DISABLE, TSTMODE_ENABLE, SMI_ADDR_TSTCNTL, he]

/-- Claim C6 witness: the all-success run and a failure of the 2nd write
(k = 1) with error `-9`. -/
theorem init_tstmode_writes_witness :
    rockchip_fephy_init_tstmode ⟨[], []⟩ =
      (0, ⟨[],
        [Ev.write SMI_ADDR_TSTCNTL TSTMODE_DISABLE,
         Ev.write SMI_ADDR_TSTCNTL TSTMODE_ENABLE,
         Ev.write SMI_ADDR_TSTCNTL TSTMODE_DISABLE,
         Ev.write SMI_ADDR_TSTCNTL TSTMODE_ENABLE]⟩) ∧
    rockchip_fephy_init_tstmode ⟨[0, -9], []⟩ =
      (-9, ⟨[],
        [Ev.write SMI_ADDR_TSTCNTL TSTMODE_DISABLE,
         Ev.write SMI_ADDR_TSTCNTL TSTMODE_ENABLE]⟩) := by
  have h := init_tstmode_writes [] 1 (-9) [] (by decide) (by decide)
  exact ⟨h.1.trans (by decide), h.2.trans (by decide)⟩

/-- The control word fits in 16 bits for any bank below 8 and offset below
32, so the `u16` conversion at the bus does not truncate it. -/
lemma TSTCNTL_WRITE_lt (bank reg : Nat) (hb : bank < 8) (hr : reg < 32) :
    TSTCNTL_WRITE bank reg < 2 ^ 16 := by
  unfold TSTCNTL_WRITE TSTCNTL_WR TSTCNTL_BANK_SEL TSTCNTL_WRITE_ADDR
  apply Nat.bitwise_lt
  · apply Nat.bitwise_lt
    · decide
    · simp only [Nat.shiftLeft_eq]
      norm_num
      omega
  · simp only [Nat.shiftLeft_eq]
    norm_num
    omega

/-- Claim C7: for every bank, offset and 16-bit value, a banked write issues
exactly 2 register writes — first the value to the test-mode write-data
register (address 23), then the control word
`TSTCNTL_WR ||| (bank <<< 11) ||| (offset <<< 0)` to the test-mode control
register (address 20) — and if the first write fails the second is not
attempted. -/
theorem bank_write_two_writes (bank reg val : Nat) (t : List Ev)
    (e : Int) (rest : List Int)
    (hb : bank < 8) (hr : reg < 32) (hv : val < 2 ^ 16) (he : e ≠ 0) :
    rockchip_fephy_bank_write bank reg val ⟨[], t⟩ =
      (0, ⟨[], t ++
        [Ev.write SMI_ADDR_TSTWRITE val,
         Ev.write SMI_ADDR_TSTCNTL (TSTCNTL_WRITE bank reg)]⟩) ∧
    rockchip_fephy_bank_write bank reg val ⟨e :: rest, t⟩ =
      (e, ⟨rest, t ++ [Ev.write SMI_ADDR_TSTWRITE val]⟩) := by
  have hc : TSTCNTL_WRITE bank reg < 65536 := by
    have h := TSTCNTL_WRITE_lt bank reg hb hr
    norm_num at h
    exact h
  have hv2 : val < 65536 := by
    norm_num at hv
    exact hv
  constructor
  · simp [rockchip_fephy_bank_write, phy_write,
      SMI_ADDR_TSTWRITE, SMI_ADDR_TSTCNTL]
    exact ⟨hv2, hc⟩
  · simp [rockchip_fephy_bank_write, phy_write,
      SMI_ADDR_TSTWRITE, SMI_ADDR_TSTCNTL, he]
    exact hv2

/-- Claim C7 witness: bank = WOL, offset = 3, value = 0xF, with a failing
first write of error `-2`. -/
theorem bank_write_two_writes_witness :
    rockchip_fephy_bank_write BANK_WOL 0x3 0xf ⟨[], []⟩ =
      (0, ⟨[],
        [Ev.write SMI_ADDR_TSTWRITE 0xf,
         Ev.write SMI_ADDR_TSTCNTL (TSTCNTL_WRITE BANK_WOL 0x3)]⟩) ∧
    rockchip_fephy_bank_write BANK_WOL 0x3 0xf ⟨[-2], []⟩ =
      (-2, ⟨[], [Ev.write SMI_ADDR_TSTWRITE 0xf]⟩) := by
  have h := bank_write_two_writes BANK_WOL 0x3 0xf [] (-2) []
    (by decide) (by decide) (by decide) (by decide)
  exact ⟨h.1.trans (by decide), h.2.trans (by decide)⟩

end RockchipFephy

namespace RockchipFephy

/-- Claim C8: WOL disable performs, in order, a banked write of 0x0 to
(WOL, 0x3) followed by a write of 0x0 to the interrupt-mask register; the
sequence is the same regardless of the prior trace, and running it twice
leaves every flat register and every banked register with the same value
as running it once (idempotent). -/
theorem wol_disable_seq_idempotent (t : List Ev) (d : Device) (a b o : Nat) :
    rockchip_fephy_wol_disable ⟨[], t⟩ =
      (0, ⟨[], t ++
        [Ev.write SMI_ADDR_TSTWRITE 0x0,
         Ev.write SMI_ADDR_TSTCNTL (TSTCNTL_WRITE BANK_WOL 0x3),
         Ev.write MII_INT_MASK 0x0]⟩) ∧
    (devRun d ((rockchip_fephy_wol_disable ⟨[], []⟩).2.trace ++
               (rockchip_fephy_wol_disable ⟨[], []⟩).2.trace)).regs a =
      (devRun d (rockchip_fephy_wol_disable ⟨[], []⟩).2.trace).regs a ∧
    (devRun d ((rockchip_fephy_wol_disable ⟨[], []⟩).2.trace ++
               (rockchip_fephy_wol_disable ⟨[], []⟩).2.trace)).banks b o =
      (devRun d (rockchip_fephy_wol_disable ⟨[], []⟩).2.trace).banks b o := by
  have hδ := wol_disable_ok []
  refine ⟨wol_disable_ok t, ?_, ?_⟩ <;>
    · rw [hδ]
      simp [devRun, devStep, SMI_ADDR_TSTCNTL, SMI_ADDR_TSTWRITE, MII_INT_MASK,
        TSTCNTL_WRITE, TSTCNTL_WR, TSTCNTL_BANK_SEL, TSTCNTL_WRITE_ADDR, BANK_WOL]
      split_ifs <;> simp_all

/-- Claim C9: if the wake-interrupt lookup reports the deferred-probe
signal, probe returns that signal verbatim, registers no interrupt handler,
and the recorded `wol_irq` is not a usable binding (it is not positive). -/
theorem probe_propagates_defer (reqRet : Int) :
    rockchip_fephy_probe true (-EPROBE_DEFER) reqRet =
      ⟨-EPROBE_DEFER, some ⟨false, -EPROBE_DEFER⟩, false⟩ ∧
    (rockchip_fephy_probe true (-EPROBE_DEFER) reqRet).irq_registered = false ∧
    ∀ p, (rockchip_fephy_probe true (-EPROBE_DEFER) reqRet).priv = some p →
      ¬ p.wol_irq > 0 := by
  have h : rockchip_fephy_probe true (-EPROBE_DEFER) reqRet =
      ⟨-EPROBE_DEFER, some ⟨false, -EPROBE_DEFER⟩, false⟩ := by
    simp [rockchip_fephy_probe]
  refine ⟨h, by rw [h], ?_⟩
  intro p hp
  rw [h] at hp
  simp only [Option.some.injEq] at hp
  rw [← hp]
  simp [EPROBE_DEFER]

/-- Claim C10: if the wake-interrupt lookup returns any non-positive value
other than the deferred-probe signal, probe succeeds with no handler
registered, and suspend/resume on such an instance issue no chip-specific
register writes at all, delegating directly to generic suspend/resume. -/
theorem probe_without_wake_line (irq reqRet genRet : Int) (ndev : net_device)
    (bus : List Int) (t : List Ev)
    (h1 : irq ≤ 0) (h2 : irq ≠ -EPROBE_DEFER) :
    rockchip_fephy_probe true irq reqRet = ⟨0, some ⟨true, irq⟩, false⟩ ∧
    rockchip_fephy_suspend genRet ⟨ndev, ⟨true, irq⟩⟩ ⟨bus, t⟩ =
      (genRet, ⟨bus, t ++ [Ev.genSuspend]⟩) ∧
    rockchip_fephy_resume genRet ⟨ndev, ⟨true, irq⟩⟩ ⟨bus, t⟩ =
      (genRet, ⟨bus, t ++ [Ev.genResume]⟩) := by
  have hn : ¬ irq > 0 := by omega
  refine ⟨?_, ?_, ?_⟩
  · simp [rockchip_fephy_probe, h2, hn]
  · simp [rockchip_fephy_suspend, genphy_suspend, hn]
  · simp [rockchip_fephy_resume, genphy_resume, hn]

/-- Claim C10 witness: lookup result 0 (wake line simply absent). -/
theorem probe_without_wake_line_witness :
    rockchip_fephy_probe true 0 9 = ⟨0, some ⟨true, 0⟩, false⟩ ∧
    rockchip_fephy_suspend 4 ⟨⟨![0, 0, 0, 0, 0, 0]⟩, ⟨true, 0⟩⟩ ⟨[], []⟩ =
      (4, ⟨[], [Ev.genSuspend]⟩) ∧
    rockchip_fephy_resume 4 ⟨⟨![0, 0, 0, 0, 0, 0]⟩, ⟨true, 0⟩⟩ ⟨[], []⟩ =
      (4, ⟨[], [Ev.genResume]⟩) := by
  have h := probe_without_wake_line 0 9 4 ⟨![0, 0, 0, 0, 0, 0]⟩ [] []
    (by decide) (by decide)
  exact ⟨h.1.trans (by decide), h.2.1.trans (by decide), h.2.2.trans (by decide)⟩

end RockchipFephy

namespace RockchipFephy

/-- Claim C9 witness: the deferred-probe lookup with request result 0. -/
theorem probe_propagates_defer_witness :
    rockchip_fephy_probe true (-EPROBE_DEFER) 0 =
      ⟨-EPROBE_DEFER, some ⟨false, -EPROBE_DEFER⟩, false⟩ ∧
    ¬ (⟨false, -EPROBE_DEFER⟩ : rockchip_fephy_priv).wol_irq > 0 :=
  ⟨(probe_propagates_defer 0).1,
   (probe_propagates_defer 0).2.2 ⟨false, -EPROBE_DEFER⟩
     (by rw [(probe_propagates_defer 0).1])⟩

end RockchipFephy
